import Mathlib

/-!
# Verification of the ModuLearn LTI Tool-Consumer Protocol Engine

Shallow embedding of the LTI launch/outcome subsystem of the ModuLearn
repository, translated from:

* `modulearn/modulearn/views_lti.py`  (launch / outcome HTTP handlers,
  `_update_module_progress`)
* `modulearn/lti/models.py`           (`LTILaunchCache`, `LTIOutcomeLog`)
* `modulearn/lti/services.py`         (body building, UM forwarding,
  outcome response, identifier validation, `generate_source_id`)
* `modulearn/lti/config.py`           (tool configurations and processors)

Modelling conventions:

* Python floats are modelled as rationals (`Rat`); every comparison in these
  code paths is on small decimal values, where float and rational semantics
  agree.
* Timestamps (`timezone.now()`, `expires_at`) are modelled as integers
  (seconds); `timedelta(hours=h)` is `3600 * h`.
* Python dicts used as parameter maps are modelled as insertion-ordered
  association lists (`List (String × String)`), which matches Python 3 dict
  ordering semantics.
* External effects (XML parsing by defusedxml, the DB result of the
  progress-store mutation, the `requests.get` call to the UM service, the
  OAuth signing done by oauthlib, the process environment) are inputs to the
  embedded handlers: each is an oracle field of an environment structure, so
  theorems quantify over all of their possible results.
-/

namespace ModuLearn

/-! ## Python string builtins (ASCII fragment)

Models of the Python builtins used by the translated code.  Each models the
ASCII fragment actually exercised by the repository (identifiers, decimal
score strings, URL components); Unicode-specific behaviour of `str.isdigit`,
`\w`, `float()` etc. is outside the modelled fragment.
-/

/-- Value of a list of decimal digit characters. -/
def digitsVal (cs : List Char) : Nat :=
  cs.foldl (fun n c => 10 * n + (c.toNat - 48)) 0

/-- Python `str.strip()` (and the whitespace stripping of `float`/`int`):
drop whitespace from both ends. -/
def pyStrip (s : String) : String :=
  String.mk (((s.data.dropWhile Char.isWhitespace).reverse.dropWhile
    Char.isWhitespace).reverse)

/-- Python `int(s)` on a plain digit string (used for `user_id` /
`course_instance_id` parsing after an `isdigit()` guard, and for
`module_id`).  Optional sign, digits, surrounding whitespace. -/
def pyInt (s : String) : Option Int :=
  let t := pyStrip s
  match t.data with
  | '-' :: r => if r ≠ [] ∧ r.all Char.isDigit then some (-(digitsVal r : Int)) else none
  | '+' :: r => if r ≠ [] ∧ r.all Char.isDigit then some (digitsVal r : Int) else none
  | r => if r ≠ [] ∧ r.all Char.isDigit then some (digitsVal r : Int) else none

/-- Python `float(s)` on decimal strings: optional sign, digits with an
optional single decimal point (`"1."`, `".5"` accepted, `"."` not).
`none` models `float()` raising `ValueError` (non-numeric input).
Exponent notation and `inf`/`nan` are outside the modelled fragment. -/
def pyFloat (s : String) : Option Rat :=
  let t := pyStrip s
  let signBody : Bool × List Char :=
    match t.data with
    | '-' :: r => (true, r)
    | '+' :: r => (false, r)
    | r => (false, r)
  let neg := signBody.1
  let body := signBody.2
  let ipRest := body.span (fun c => c ≠ '.')
  let ip := ipRest.1
  let core : Option Rat :=
    match ipRest.2 with
    | [] => if ip ≠ [] ∧ ip.all Char.isDigit then some (digitsVal ip : Rat) else none
    | _ :: frac =>
        if (ip ≠ [] ∨ frac ≠ []) ∧ ip.all Char.isDigit ∧ frac.all Char.isDigit then
          some ((digitsVal ip : Rat) + (digitsVal frac : Rat) / ((10 : Rat) ^ frac.length))
        else none
  core.map (fun v => if neg then -v else v)

/-- Python truthiness of an optional integer field (`None` and `0` are
falsy), as in `if cache_entry.user_id and cache_entry.module_id`. -/
def truthyInt : Option Int → Bool
  | none => false
  | some n => n ≠ 0

/-! ## ProgressReconciler — `_update_module_progress`
(`modulearn/views_lti.py` lines 130-155)

The local progress record (`courses.models.ModuleProgress`): `score` is a
nullable float column (a fresh record has `score = None`; after an update
the code stores `score * 100`, a percentage), `progress` is the 0-1
fraction, plus completion/success flags and the attempt counter.  Only the
fields touched by `_update_module_progress` are modelled. -/

structure ModuleProgress where
  score : Option Rat
  progress : Rat
  is_complete : Bool
  success : Bool
  attempts : Nat
deriving Repr, DecidableEq

/-- A fresh `ModuleProgress` row (Django field defaults: `score=None`,
`progress=0.0`, flags false, `attempts=0`). -/
def freshProgress : ModuleProgress :=
  { score := none, progress := 0, is_complete := false, success := false, attempts := 0 }

/-- `_update_module_progress`, update section (views_lti.py 130-155):
```
if progress.score is None or score > progress.score:
    progress.score = score * 100  # Convert to percentage
    progress.progress = score
    progress.is_complete = score >= 1.0
    progress.success = score >= 0.7
    progress.attempts += 1
    progress.save()
    return True
else:
    return False
```
Returns the stored record and the boolean result of the function. -/
def update_module_progress (p : ModuleProgress) (score : Rat) : ModuleProgress × Bool :=
  let shouldUpdate :=
    match p.score with
    | none => true
    | some st => decide (score > st)
  if shouldUpdate then
    ({ score := some (score * 100),
       progress := score,
       is_complete := decide (score ≥ 1),
       success := decide (score ≥ 7 / 10),
       attempts := p.attempts + 1 }, true)
  else (p, false)

/-! ## LaunchCache — `LTILaunchCache` (`lti/models.py`) -/

structure LTILaunchCacheEntry where
  source_id : String
  tool : String
  usr : String
  grp : String
  sub : String
  module_id : Option Int
  user_id : Option Int
  course_instance_id : Option Int
  cid : String
  sid : String
  svc : String
  launch_url : String
  created_at : Int
  expires_at : Int
deriving Repr, DecidableEq

/-- `LTILaunchCache.is_expired`: `timezone.now() > self.expires_at`. -/
def is_expired (e : LTILaunchCacheEntry) (now : Int) : Bool :=
  decide (now > e.expires_at)

/-- The DB table, as a list of rows (`source_id` is a unique column). -/
abbrev CacheStore := List LTILaunchCacheEntry

/-- `cls.objects.get(source_id=...)` on the unique column. -/
def findCache (store : CacheStore) (sid : String) : Option LTILaunchCacheEntry :=
  store.find? (fun e => e.source_id = sid)

/-- `int(usr) if usr and usr.isdigit() else None` (models.py 102-109). -/
def parse_int_id (s : String) : Option Int :=
  if s ≠ "" ∧ s.data.all Char.isDigit then pyInt s else none

/-- `LTILaunchCache.get_or_create_cache` (models.py 73-135):
`expires_at = timezone.now() + timedelta(hours=ttl_hours)`, parses
`user_id`/`course_instance_id` from `usr`/`grp`, then
`update_or_create(source_id=..., defaults=...)` — an upsert that refreshes
every overlapping field (last write wins) but keeps `created_at` on update
(`auto_now_add`).  Returns the stored row and the new table state. -/
def get_or_create_cache (store : CacheStore) (now : Int)
    (source_id tool usr grp sub cid sid svc launch_url : String)
    (ttl_hours : Int) (module_id : Option Int) :
    LTILaunchCacheEntry × CacheStore :=
  let expires_at := now + 3600 * ttl_hours
  let entry : LTILaunchCacheEntry :=
    { source_id := source_id, tool := tool, usr := usr, grp := grp, sub := sub,
      module_id := module_id,
      user_id := parse_int_id usr,
      course_instance_id := parse_int_id grp,
      cid := cid, sid := sid, svc := svc, launch_url := launch_url,
      created_at := now, expires_at := expires_at }
  match findCache store source_id with
  | some old =>
      let e := { entry with created_at := old.created_at }
      (e, store.map (fun x => if x.source_id = source_id then e else x))
  | none => (entry, store ++ [entry])

/-- `LTILaunchCache.get_valid_cache` (models.py 137-157): fetch by
`source_id`; an expired row is deleted and reported as not found.
Returns the lookup result and the (possibly pruned) table state. -/
def get_valid_cache (store : CacheStore) (source_id : String) (now : Int) :
    Option LTILaunchCacheEntry × CacheStore :=
  match findCache store source_id with
  | none => (none, store)
  | some e =>
      if is_expired e now then
        (none, store.filter (fun x => x.source_id ≠ source_id))
      else (some e, store)

/-! ## Identifier validation and source ids (`lti/services.py` 562-609) -/

/-- One character of `SAFE_ID_PATTERN = ^[\w\-\.@]+$` (ASCII fragment of
`\w`). -/
def SAFE_ID_CHAR (c : Char) : Bool :=
  c.isAlphanum || c = '_' || c = '-' || c = '.' || c = '@'

/-- `SAFE_ID_PATTERN.match(value)`: nonempty and all characters allowed. -/
def SAFE_ID_MATCH (s : String) : Bool :=
  s ≠ "" && s.data.all SAFE_ID_CHAR

/-- `validate_identifier(value, name, max_length)` (services.py 565-591):
empty input, an over-long *stripped* value, or a pattern violation raise
`ValueError` (modelled as `.error`); otherwise the **stripped** value is
returned. -/
def validate_identifier (value name : String) (max_length : Nat) :
    Except String String :=
  if value = "" then
    .error ("Missing required parameter: " ++ name)
  else if (pyStrip value).length > max_length then
    .error ("Parameter \x27" ++ name ++ "\x27 exceeds maximum length (" ++
      toString max_length ++ ")")
  else if ¬ SAFE_ID_MATCH (pyStrip value) then
    .error ("Parameter \x27" ++ name ++ "\x27 contains invalid characters")
  else .ok (pyStrip value)

/-- `generate_source_id(usr, grp, sub)` (services.py 594-609):
`f"{usr}_{grp}_{sub}"`. -/
def generate_source_id (usr grp sub : String) : String :=
  usr ++ "_" ++ grp ++ "_" ++ sub

/-! ## Python `str.format` (template substitution)

Model of CPython's `str.format(**kwargs)` called with keyword arguments
only, as used by `create_lti_body` (services.py 131-150).  The translated
error outcomes matter for control flow:

* an unknown keyword field (`"{nope}"`) raises `KeyError` — the only
  exception the repository catches;
* an empty or numeric field (`"{}"`, `"{0}"`) is a *positional* reference;
  with no positional arguments CPython raises `IndexError`
  ("Replacement index 0 out of range");
* a stray single brace or a brace inside a field name raises `ValueError`.

Format/conversion specs (`:`/`!`) never appear in this repository's
templates and are outside the modelled fragment (such characters are simply
accumulated into the field name here). -/

inductive FmtErr
  | keyError (key : String)
  | indexError
  | singleBrace
deriving Repr, DecidableEq

/-- Scanner state for `pyFormat`: literal text, just after `{`, inside a
field name, just after `}`. -/
inductive FmtMode
  | lit
  | seenL
  | inField (acc : List Char)
  | seenR
deriving Repr, DecidableEq

/-- Keyword-argument lookup for `str.format(**format_vars)`. -/
def lookupVar (vars : List (String × String)) (k : String) : Option String :=
  (vars.find? (fun kv => kv.1 = k)).map (fun kv => kv.2)

/-- One character of the `str.format` scan. -/
def fmtStep (vars : List (String × String)) :
    List Char × FmtMode → Char → Except FmtErr (List Char × FmtMode)
  | (out, .lit), c =>
    if c = '{' then .ok (out, .seenL)
    else if c = '}' then .ok (out, .seenR)
    else .ok (out ++ [c], .lit)
  | (out, .seenL), c =>
    if c = '{' then .ok (out ++ ['{'], .lit)
    else if c = '}' then .error .indexError
    else .ok (out, .inField [c])
  | (out, .inField acc), c =>
    if c = '}' then
      if acc.all Char.isDigit then .error .indexError
      else
        match lookupVar vars (String.mk acc) with
        | some v => .ok (out ++ v.data, .lit)
        | none => .error (.keyError (String.mk acc))
    else if c = '{' then .error .singleBrace
    else .ok (out, .inField (acc ++ [c]))
  | (out, .seenR), c =>
    if c = '}' then .ok (out ++ ['}'], .lit)
    else .error .singleBrace

/-- `template.format(**vars)` with keyword arguments only. -/
def pyFormat (tmpl : String) (vars : List (String × String)) :
    Except FmtErr String := do
  let r ← tmpl.data.foldlM (fmtStep vars) ([], .lit)
  match r with
  | (out, .lit) => .ok (String.mk out)
  | _ => .error .singleBrace

/-- A Python exception escaping a service function.  `valueError` is the
only class the HTTP handlers catch around body building
(`except ValueError` in the launch view); `indexError` and `keyError`
propagate to Django's generic 500 handler. -/
inductive PyErr
  | valueError (msg : String)
  | indexError (msg : String)
  | keyError (msg : String)
deriving Repr, DecidableEq

/-- Exception class of a `str.format` failure surviving the repository's
`except KeyError` handlers. -/
def fmtErrToPyErr : FmtErr → PyErr
  | .keyError k => .keyError k
  | .indexError => .indexError "Replacement index 0 out of range"
  | .singleBrace => .valueError "Single brace encountered in format string"

/-! ## `urllib.parse.urlencode` (ASCII fragment) -/

/-- Uppercase hex digit. -/
def hexDigit (n : Nat) : Char :=
  if n < 10 then Char.ofNat (48 + n) else Char.ofNat (55 + n)

/-- `urllib.parse.quote_plus` on ASCII text: alphanumerics and `_.-~` kept,
space becomes `+`, anything else percent-encoded. -/
def quote_plus (s : String) : String :=
  String.mk ((s.data.map (fun c =>
    if c.isAlphanum || c = '_' || c = '.' || c = '-' || c = '~' then [c]
    else if c = ' ' then ['+']
    else ['%', hexDigit (c.toNat / 16 % 16), hexDigit (c.toNat % 16)])).flatten)

/-- `urllib.parse.urlencode` over an insertion-ordered parameter map. -/
def urlencode (ps : List (String × String)) : String :=
  String.intercalate "&" (ps.map (fun kv => quote_plus kv.1 ++ "=" ++ quote_plus kv.2))

/-! ## ToolRegistry — `lti/config.py` -/

/-- Named processor functions (config.py 24-55). -/
def ctat_url_modifier (base_url sub : String) : String :=
  String.mk ((base_url.data.reverse.dropWhile (fun c => c = '/')).reverse) ++ "/mg_" ++ sub

/-- `ctat_score_processor`: any score parsing to a float `> 0` becomes
`"1"`, anything else (including non-numeric) `"0"`. -/
def ctat_score_processor (score sub : String) : String × String :=
  match pyFloat score with
  | some v => (if v > 0 then "1" else "0", sub)
  | none => ("0", sub)

def opendsa_url_modifier (base_url sub : String) : String :=
  base_url ++ "?custom_ex_settings=%7B%7D&custom_ex_short_name=" ++ sub

def dbqa_url_modifier (base_url sub : String) : String :=
  base_url ++ "?queryType=" ++ sub

def dbqa_score_processor (score sub : String) : String × String :=
  (score, sub ++ "-lti")

def dbqa_act_modifier (act : String) : String :=
  act ++ "-lti"

/-- The `PROCESSORS` registry (config.py 59-71), split by the shape each
call site expects (launch-URL modifiers, outcome score processors, outcome
act modifiers); every registered name is used with a consistent shape. -/
def get_url_modifier : String → Option (String → String → String)
  | "ctat_url_modifier" => some ctat_url_modifier
  | "opendsa_url_modifier" => some opendsa_url_modifier
  | "dbqa_url_modifier" => some dbqa_url_modifier
  | _ => none

def get_score_processor : String → Option (String → String → String × String)
  | "ctat_score_processor" => some ctat_score_processor
  | "dbqa_score_processor" => some dbqa_score_processor
  | _ => none

def get_act_modifier : String → Option (String → String)
  | "dbqa_act_modifier" => some dbqa_act_modifier
  | _ => none

/-- One entry of `LTI_TOOL_CONFIGS` (config.py 78-253).  Fields not used by
the embedded code paths (`refuses_iframe` and its reason) are omitted. -/
structure ToolConfig where
  consumer_key : String := ""
  consumer_secret : String := ""
  launch_url : String := ""
  app_id : String := ""
  act : String := ""
  lti_body_overrides : List (String × String) := []
  launch_url_modifier : Option String := none
  outcome_score_processor : Option String := none
  outcome_act_modifier : Option String := none
  is_paws_proxy : Bool := false
  paws_tool : Option String := none
deriving Repr, DecidableEq

/-- The process environment, `os.getenv(key, default)`. -/
def getenvD (env : String → Option String) (k d : String) : String :=
  (env k).getD d

/-- `get_tool_configs()` (config.py 78-253), parameterised by the process
environment. -/
def get_tool_configs (env : String → Option String) : List (String × ToolConfig) :=
  [ ("paws_codeocean",
      { launch_url := getenvD env "PAWS_LTI_URL" "http://adapt2.sis.pitt.edu/lti/launch",
        app_id := "54", act := "codeocean",
        is_paws_proxy := true, paws_tool := some "codeocean" }),
    ("paws_ctat",
      { launch_url := getenvD env "PAWS_LTI_URL" "http://adapt2.sis.pitt.edu/lti/launch",
        app_id := "50", act := "ctat",
        is_paws_proxy := true, paws_tool := some "ctat" }),
    ("paws_codecheck",
      { launch_url := getenvD env "PAWS_LTI_URL" "http://adapt2.sis.pitt.edu/lti/launch",
        app_id := "56", act := "codecheck",
        is_paws_proxy := true, paws_tool := some "codecheck" }),
    ("codecheck",
      { consumer_key := getenvD env "CODECHECK_KEY" "",
        consumer_secret := getenvD env "CODECHECK_SECRET" "",
        launch_url := getenvD env "CODECHECK_LAUNCH" "https://codecheck.io/lti",
        app_id := "56", act := "codecheck" }),
    ("codeworkout",
      { consumer_key := getenvD env "CODEWORKOUT_KEY" "",
        consumer_secret := getenvD env "CODEWORKOUT_SECRET" "",
        launch_url := getenvD env "CODEWORKOUT_LAUNCH" "https://codeworkout.cs.vt.edu/lti/launch",
        app_id := "49", act := "codeworkout",
        lti_body_overrides :=
          [ ("lis_person_sourcedid", "mastery_grids"),
            ("custom_course_name", "Introduction to Java Programming"),
            ("custom_course_number", "IS 0017"),
            ("custom_label", "SPLICE"),
            ("custom_term", "spring-2019") ] }),
    ("ctat",
      { consumer_key := getenvD env "CTAT_KEY" "",
        consumer_secret := getenvD env "CTAT_SECRET" "",
        launch_url := getenvD env "CTAT_LAUNCH"
          "https://preview.ctat.cs.cmu.edu/run_lti_problem_set/ProgramCompFinal_ItgtModel_English",
        app_id := "50", act := "ctat",
        lti_body_overrides :=
          [ ("context_title", "Python Mastery Grids Spring 2019"),
            ("context_label", "Python Mastery Grids Spring 2019"),
            ("lis_person_sourcedid", "{usr}") ],
        launch_url_modifier := some "ctat_url_modifier",
        outcome_score_processor := some "ctat_score_processor" }),
    ("codelab",
      { consumer_key := getenvD env "CODELAB_KEY" "",
        consumer_secret := getenvD env "CODELAB_SECRET" "",
        launch_url := getenvD env "CODELAB_LAUNCH" "https://codelab.turingscraft.com/codelab/lti/launch",
        app_id := "52", act := "codelab",
        lti_body_overrides :=
          [ ("context_id", "S3294476"),
            ("context_title", "Mastery Grids"),
            ("context_label", "MasteryGrids"),
            ("lis_person_sourcedid", "mastery_grids") ] }),
    ("dbqa",
      { consumer_key := getenvD env "DBQA_KEY" "",
        consumer_secret := getenvD env "DBQA_SECRET" "",
        launch_url := getenvD env "DBQA_LAUNCH" "https://codesmell.org/dbqa/lti/1.1/launch",
        app_id := "53", act := "dbqa",
        lti_body_overrides :=
          [ ("resource_link_id", "mg_{grp}_{sub}"),
            ("resource_link_title", "mg_{grp}_{sub}"),
            ("resource_link_description", "mg_{grp}_{sub}"),
            ("context_id", "mg_{grp}"),
            ("context_title", "Mastery Grids {grp}"),
            ("context_label", "MasteryGrids {grp}"),
            ("lis_person_sourcedid", "mastery_grids_{usr}") ],
        launch_url_modifier := some "dbqa_url_modifier",
        outcome_score_processor := some "dbqa_score_processor",
        outcome_act_modifier := some "dbqa_act_modifier" }),
    ("codeocean",
      { consumer_key := getenvD env "CODEOCEAN_KEY" "",
        consumer_secret := getenvD env "CODEOCEAN_SECRET" "",
        launch_url := getenvD env "CODEOCEAN_LAUNCH" "https://codeocean.openhpi.de/lti/launch",
        app_id := "54", act := "codeocean",
        lti_body_overrides :=
          [ ("custom_locale", "en"),
            ("custom_course", "splice-live-catalog"),
            ("custom_token", "{sub}"),
            ("lis_person_sourcedid", "mastery_grids") ] }),
    ("opendsa_problems",
      { consumer_key := getenvD env "OPENDSA_PROBLEMS_KEY" "",
        consumer_secret := getenvD env "OPENDSA_PROBLEMS_SECRET" "",
        launch_url := getenvD env "OPENDSA_PROBLEMS_LAUNCH" "https://opendsa-server.cs.vt.edu/lti/launch",
        app_id := "60", act := "opendsa_problems",
        lti_body_overrides :=
          [ ("custom_ex_short_name", "{sub}"),
            ("custom_ex_settings", "\x7b\x7d"),
            ("lis_person_sourcedid", "mastery_grids") ],
        launch_url_modifier := some "opendsa_url_modifier" }),
    ("opendsa_slideshows",
      { consumer_key := getenvD env "OPENDSA_SLIDESHOWS_KEY" "",
        consumer_secret := getenvD env "OPENDSA_SLIDESHOWS_SECRET" "",
        launch_url := getenvD env "OPENDSA_SLIDESHOWS_LAUNCH" "https://opendsa-server.cs.vt.edu/lti/launch",
        app_id := "61", act := "opendsa_slideshows",
        lti_body_overrides :=
          [ ("custom_ex_short_name", "{sub}"),
            ("custom_ex_settings", "\x7b\x7d"),
            ("lis_person_sourcedid", "mastery_grids") ],
        launch_url_modifier := some "opendsa_url_modifier" }) ]

/-- `get_tool_config(tool_name)` (config.py 256-267). -/
def get_tool_config (env : String → Option String) (tool_name : String) :
    Option ToolConfig :=
  ((get_tool_configs env).find? (fun kv => kv.1 = tool_name)).map (fun kv => kv.2)

/-- `is_tool_configured(tool_name)` (config.py 270-298): PAWS-proxy tools
need only a launch URL; direct tools need key, secret and launch URL. -/
def is_tool_configured (env : String → Option String) (tool_name : String) : Bool :=
  match get_tool_config env tool_name with
  | none => false
  | some cfg =>
      if cfg.is_paws_proxy then cfg.launch_url ≠ ""
      else cfg.consumer_key ≠ "" && cfg.consumer_secret ≠ "" && cfg.launch_url ≠ ""

/-! ## LaunchBodyBuilder — `lti/services.py` 26-160 -/

/-- `create_base_lti_body` (services.py 26-86): the common LTI 1.0/1.1
parameter set (Python f-strings already interpolated). -/
def create_base_lti_body (source_id usr grp sub outcome_service_url : String) :
    List (String × String) :=
  [ ("lti_message_type", "basic-lti-launch-request"),
    ("lti_version", "LTI-1p0"),
    ("user_id", usr),
    ("roles", "Learner"),
    ("lis_person_name_full", usr),
    ("lis_person_name_family", usr),
    ("lis_person_name_given", usr),
    ("lis_person_contact_email_primary", usr ++ "@mg.paws.edu"),
    ("tool_consumer_info_product_family_code", "modulearn"),
    ("tool_consumer_info_version", "1.1"),
    ("tool_consumer_instance_guid", "modulearn.personalized-learning.org"),
    ("tool_consumer_instance_description", "ModuLearn LMS"),
    ("lis_outcome_service_url", outcome_service_url),
    ("lis_result_sourcedid", source_id),
    ("resource_link_id", "mg_" ++ sub),
    ("resource_link_title", "mg_" ++ sub),
    ("resource_link_description", "mg_" ++ sub),
    ("ext_lti_assignment_id", "modulearn_" ++ sub),
    ("context_id", source_id),
    ("context_title", source_id),
    ("context_label", source_id),
    ("lis_person_sourcedid", "modulearn"),
    ("launch_presentation_document_target", "iframe"),
    ("ext_submit", "Press to Launch") ]

/-- Python dict assignment `body[key] = value` on an insertion-ordered
association list: update in place, or append a new key. -/
def dictSet (d : List (String × String)) (k v : String) : List (String × String) :=
  if d.any (fun kv => kv.1 = k) then
    d.map (fun kv => if kv.1 = k then (k, v) else kv)
  else d ++ [(k, v)]

/-- `'{' in value` (the template-string test at services.py 134/146). -/
def hasLBrace (s : String) : Bool :=
  s.data.any (fun c => c = '{')

/-- One iteration of the override loop (services.py 132-142): template
values are formatted; a `KeyError` (unknown placeholder) is logged and the
raw value kept; any other `str.format` exception propagates. -/
def applyOverride (vars : List (String × String))
    (body : List (String × String)) (kv : String × String) :
    Except FmtErr (List (String × String)) :=
  if hasLBrace kv.2 then
    match pyFormat kv.2 vars with
    | .ok r => .ok (dictSet body kv.1 r)
    | .error (.keyError _) => .ok (dictSet body kv.1 kv.2)
    | .error e => .error e
  else .ok (dictSet body kv.1 kv.2)

/-- `create_lti_body` (services.py 89-160): base body, tool overrides with
placeholder substitution, a second formatting pass over remaining template
strings (`except KeyError: pass`), the DBQA `step_explanation` special
case, and `course_id` when `cid` is nonempty. -/
def create_lti_body (env : String → Option String)
    (tool_name source_id sub usr grp cid outcome_service_url : String)
    (step_explanation : Option String) :
    Except PyErr (List (String × String)) :=
  match get_tool_config env tool_name with
  | none => .error (.valueError ("Tool \x27" ++ tool_name ++ "\x27 not found in configuration"))
  | some cfg =>
    let body := create_base_lti_body source_id usr grp sub outcome_service_url
    let vars := [("sub", sub), ("grp", grp), ("usr", usr), ("cid", cid),
                 ("source_id", source_id)]
    match cfg.lti_body_overrides.foldlM (applyOverride vars) body with
    | .error e => .error (fmtErrToPyErr e)
    | .ok body1 =>
      match body1.foldlM (fun acc kv =>
          (if hasLBrace kv.2 then
            match pyFormat kv.2 vars with
            | .ok r => .ok (dictSet acc kv.1 r)
            | .error (.keyError _) => .ok acc
            | .error e => .error e
          else .ok acc : Except FmtErr (List (String × String)))) body1 with
      | .error e => .error (fmtErrToPyErr e)
      | .ok body2 =>
        let body3 :=
          if tool_name = "dbqa" then
            match step_explanation with
            | some se => dictSet body2 "ext_display_step_explanation" se
            | none => body2
          else body2
        let body4 := if cid ≠ "" then dictSet body3 "course_id" cid else body3
        .ok body4

/-- `get_launch_url` (services.py 167-198): the configured URL, with the
tool's named URL modifier applied when present (an unknown modifier name is
only a warning). -/
def get_launch_url (env : String → Option String) (tool_name sub : String) :
    Except PyErr String :=
  match get_tool_config env tool_name with
  | none => .error (.valueError ("Tool \x27" ++ tool_name ++ "\x27 not found in configuration"))
  | some cfg =>
    if cfg.launch_url = "" then
      .error (.valueError ("Tool \x27" ++ tool_name ++ "\x27 has no launch_url configured"))
    else
      match cfg.launch_url_modifier with
      | some m =>
          match get_url_modifier m with
          | some f => .ok (f cfg.launch_url sub)
          | none => .ok cfg.launch_url
      | none => .ok cfg.launch_url

/-- `build_paws_launch_params` (services.py 243-306): query parameters for
a PAWS-mediated launch (no local OAuth signing).  A nonempty
`outcome_service_url` overwrites `svc`. -/
def build_paws_launch_params (env : String → Option String)
    (tool_name sub usr grp cid sid svc outcome_service_url : String) :
    Except PyErr (List (String × String) × String) :=
  match get_tool_config env tool_name with
  | none => .error (.valueError ("Tool \x27" ++ tool_name ++ "\x27 not found in configuration"))
  | some cfg =>
    if cfg.launch_url = "" then
      .error (.valueError ("Tool \x27" ++ tool_name ++ "\x27 has no launch_url configured"))
    else
      let paws_tool := cfg.paws_tool.getD (tool_name.replace "paws_" "")
      let ps := [("tool", paws_tool), ("sub", sub), ("usr", usr), ("grp", grp)]
      let ps := if cid ≠ "" then ps ++ [("cid", cid)] else ps
      let ps := if sid ≠ "" then ps ++ [("sid", sid)] else ps
      let ps := if svc ≠ "" then ps ++ [("svc", svc)] else ps
      let ps := if outcome_service_url ≠ "" then dictSet ps "svc" outcome_service_url else ps
      .ok (ps, cfg.launch_url ++ "?" ++ urlencode ps)

/-- The OAuth 1.0 signing performed by `oauthlib` in `sign_lti_request`
(services.py 205-240), as an oracle: it consumes the body, credentials and
launch URL and yields the signed parameter list. -/
abbrev SignOracle :=
  List (String × String) → String → String → String → List (String × String)

/-- `build_signed_lti_params` (services.py 309-382).  The third component
records whether local OAuth signing was performed (false on the PAWS
branch). -/
def build_signed_lti_params (env : String → Option String) (sign : SignOracle)
    (tool_name source_id sub usr grp cid outcome_service_url : String)
    (step_explanation : Option String) (sid svc : String) :
    Except PyErr (List (String × String) × String × Bool) :=
  match get_tool_config env tool_name with
  | none => .error (.valueError ("Tool \x27" ++ tool_name ++ "\x27 not found in configuration"))
  | some cfg =>
    if cfg.is_paws_proxy then
      match build_paws_launch_params env tool_name sub usr grp cid sid svc
          outcome_service_url with
      | .error e => .error e
      | .ok (ps, url) => .ok (ps, url, false)
    else
      if cfg.consumer_key = "" ∨ cfg.consumer_secret = "" then
        .error (.valueError ("Tool \x27" ++ tool_name ++ "\x27 missing credentials (set env vars)"))
      else
        match create_lti_body env tool_name source_id sub usr grp cid
            outcome_service_url step_explanation with
        | .error e => .error e
        | .ok body =>
          match get_launch_url env tool_name sub with
          | .error e => .error e
          | .ok url =>
              .ok (sign body cfg.consumer_key cfg.consumer_secret url, url, true)

/-! ## UMForwarder — `build_um_url` (services.py 389-456) -/

/-- `build_um_url`: ADAPT2-style query with `app/act/sub/res/usr/grp/sid/
svc/cid`, tool score processor and act modifier applied, empty values
dropped.  Note the `res` field carries the score string given to it. -/
def build_um_url (env : String → Option String)
    (base_um_url tool_name score usr grp sub sid svc cid : String) :
    Except String String :=
  match get_tool_config env tool_name with
  | none => .error ("Tool \x27" ++ tool_name ++ "\x27 not found in configuration")
  | some cfg =>
    let app_id := cfg.app_id
    let act := cfg.act
    let scoreSub :=
      match cfg.outcome_score_processor with
      | some pname =>
          match get_score_processor pname with
          | some f => f score sub
          | none => (score, sub)
      | none => (score, sub)
    let act1 :=
      match cfg.outcome_act_modifier with
      | some aname =>
          match get_act_modifier aname with
          | some f => f act
          | none => act
      | none => act
    let params := [("app", app_id), ("act", act1), ("sub", scoreSub.2),
                   ("res", scoreSub.1), ("usr", usr), ("grp", grp),
                   ("sid", sid), ("svc", svc), ("cid", cid)]
    let params := params.filter (fun kv => kv.2 ≠ "")
    .ok (base_um_url ++ "?" ++ urlencode params)

/-! ## OutcomeProcessor response — `create_outcome_response`
(services.py 513-554) -/

/-- `create_outcome_response(success, description)`: the POX
`replaceResultResponse` envelope.  The nondeterministic pieces (the
`strftime` message-ref identifier and the `uuid4` message identifier) are
passed in as arguments. -/
def create_outcome_response (success : Bool) (description : String)
    (message_ref_id uuid : String) : String :=
  let code_major := if success then "success" else "failure"
  let severity := if success then "status" else "error"
  "<?xml version=\"1.0\" encoding=\"UTF-8\"?>\n<imsx_POXEnvelopeResponse xmlns=\"http://www.imsglobal.org/services/ltiv1p1/xsd/imsoms_v1p0\">\n  <imsx_POXHeader>\n    <imsx_POXResponseHeaderInfo>\n      <imsx_version>V1.0</imsx_version>\n      <imsx_messageIdentifier>" ++ uuid ++
  "</imsx_messageIdentifier>\n      <imsx_statusInfo>\n        <imsx_codeMajor>" ++ code_major ++
  "</imsx_codeMajor>\n        <imsx_severity>" ++ severity ++
  "</imsx_severity>\n        <imsx_description>" ++ description ++
  "</imsx_description>\n        <imsx_messageRefIdentifier>" ++ message_ref_id ++
  "</imsx_messageRefIdentifier>\n      </imsx_statusInfo>\n    </imsx_POXResponseHeaderInfo>\n  </imsx_POXHeader>\n  <imsx_POXBody>\n    <replaceResultResponse/>\n  </imsx_POXBody>\n</imsx_POXEnvelopeResponse>"

/-! ## Outcome log — `LTIOutcomeLog` (`lti/models.py` 173-209) -/

structure LTIOutcomeLogEntry where
  source_id : String := ""
  tool : String := ""
  score_raw : String := ""
  score_normalized : Option Rat := none
  success : Bool := false
  um_url : String := ""
  um_response_status : Option Int := none
  error_message : String := ""
deriving Repr, DecidableEq

/-! ## Outcome view — `outcome` (`modulearn/views_lti.py` 329-503) -/

/-- The score validation / clamping block of the outcome view
(views_lti.py 371-383), as a function of the result of `float(score)`:
```
try:
    score_float = float(score)
    if score_float < 0:   score_float = 0.0
    elif score_float > 1: score_float = 1.0
    log_entry.score_normalized = score_float
except (ValueError, TypeError):
    score_float = 0.0
```
Returns `score_float` and the `score_normalized` value written to the log
entry (which stays `None` when `float()` raised, since the assignment sits
after the clamp inside the `try`). -/
def normalize_score (v : Option Rat) : Rat × Option Rat :=
  match v with
  | some x =>
      if x < 0 then (0, some 0)
      else if x > 1 then (1, some 1)
      else (x, some x)
  | none => (0, none)

/-- Result of `requests.get(um_url, timeout=10)`. -/
inductive UMHttpResult
  | status (code : Int)
  | timeout
  | requestError (msg : String)
deriving Repr, DecidableEq

/-- Inputs of one call to the outcome view.  `parseResult` is the outcome
of `parse_outcome_xml(request.body)` (the XML library is external to the
embedding; `.error` is the `ValueError` it raises).  `internalFault` is an
unexpected exception (`except Exception` at the outer boundary) raised
while processing a parsed request.  `progressResult` is the boolean
returned by `_update_module_progress` when it is called (its DB lookups
are external).  `respTime`/`respUuid` are the `strftime`/`uuid4` values
used by `create_outcome_response`. -/
structure OutcomeEnv where
  parseResult : Except String (String × String)
  internalFault : Option String
  cacheStore : CacheStore
  now : Int
  progressResult : Bool
  forwardToUM : Bool
  umServiceUrl : String
  umHttp : UMHttpResult
  env : String → Option String
  respTime : String
  respUuid : String

/-- Observable outcome of one call to the outcome view: HTTP status and
body, the list of `LTIOutcomeLog` rows written, and the trace of the two
side effects (whether each was attempted, the score handed to the progress
update, the UM URL requested, and each effect's computed result). -/
structure OutcomeResult where
  status : Nat
  body : String
  logs : List LTIOutcomeLogEntry
  progressAttempted : Bool
  progressScoreArg : Option Rat
  progressUpdated : Bool
  umAttempted : Bool
  umUrl : Option String
  umSuccess : Bool
deriving Repr

/-- The outcome view body (views_lti.py 329-503), translated branch by
branch: parse failure, the outer `except Exception` boundary, cache
lookup, the progress update (attempted only when both `user_id` and
`module_id` are truthy), UM forwarding (attempted only when
`LTI_FORWARD_TO_UM`; `um_success = True` without an attempt when
disabled), the overall `progress_updated or um_success`, the single log
save per path, and the always-200 XML response. -/
def outcome (env : OutcomeEnv) : OutcomeResult :=
  match env.parseResult with
  | .error e =>
      { status := 200,
        body := create_outcome_response false ("XML parse error: " ++ e)
          env.respTime env.respUuid,
        logs := [{ error_message := e }],
        progressAttempted := false, progressScoreArg := none,
        progressUpdated := false, umAttempted := false, umUrl := none,
        umSuccess := false }
  | .ok (source_id, score) =>
    match env.internalFault with
    | some msg =>
        { status := 200,
          body := create_outcome_response false "Internal server error"
            env.respTime env.respUuid,
          logs := [{ source_id := source_id, score_raw := score,
                     error_message := "Unexpected error: " ++ msg }],
          progressAttempted := false, progressScoreArg := none,
          progressUpdated := false, umAttempted := false, umUrl := none,
          umSuccess := false }
    | none =>
      match (get_valid_cache env.cacheStore source_id env.now).1 with
      | none =>
          { status := 200,
            body := create_outcome_response false "Launch context not found or expired"
              env.respTime env.respUuid,
            logs := [{ source_id := source_id, score_raw := score,
                       score_normalized := (normalize_score (pyFloat score)).2,
                       error_message := "Launch context not found or expired" }],
            progressAttempted := false, progressScoreArg := none,
            progressUpdated := false, umAttempted := false, umUrl := none,
            umSuccess := false }
      | some ce =>
        let log3 : LTIOutcomeLogEntry :=
          { source_id := source_id, tool := ce.tool, score_raw := score,
            score_normalized := (normalize_score (pyFloat score)).2 }
        let pAtt := truthyInt ce.user_id && truthyInt ce.module_id
        let progress_updated := pAtt && env.progressResult
        let step2 : Bool × LTIOutcomeLogEntry × Option String :=
          if env.forwardToUM then
            match build_um_url env.env env.umServiceUrl ce.tool score
                ce.usr ce.grp ce.sub ce.sid ce.svc ce.cid with
            | .error e =>
                (false, { log3 with error_message := "Failed to build UM URL: " ++ e }, none)
            | .ok url =>
              match env.umHttp with
              | .status code =>
                  if code = 200 then
                    (true,
                     { log3 with
                        um_url := url
                        um_response_status := some code },
                     some url)
                  else
                    (false,
                     { log3 with
                        um_url := url
                        um_response_status := some code
                        error_message := "UM service returned " ++ toString code },
                     some url)
              | .timeout =>
                  (false,
                   { log3 with
                      um_url := url
                      error_message := "UM service timeout" },
                   some url)
              | .requestError m =>
                  (false,
                   { log3 with
                      um_url := url
                      error_message := m },
                   some url)
          else (true, log3, none)
        let um_success := step2.1
        let overall := progress_updated || um_success
        let msg :=
          if overall then
            let m0 := "Score " ++ score ++ " recorded"
            let m1 := if progress_updated then m0 ++ " (local progress updated)" else m0
            if um_success && env.forwardToUM then m1 ++ " (UM notified)" else m1
          else "Failed to record score"
        { status := 200,
          body := create_outcome_response overall msg env.respTime env.respUuid,
          logs := [{ step2.2.1 with success := overall }],
          progressAttempted := pAtt,
          progressScoreArg := if pAtt then some (normalize_score (pyFloat score)).1 else none,
          progressUpdated := progress_updated,
          umAttempted := env.forwardToUM,
          umUrl := step2.2.2,
          umSuccess := um_success }

/-- The outcome endpoint including the `@require_http_methods(["POST"])`
decorator: a non-POST request is rejected with 405 before the view body
runs (no log entry, no effects). -/
def outcomeView (method : String) (env : OutcomeEnv) : OutcomeResult :=
  if method = "POST" then outcome env
  else
    { status := 405, body := "", logs := [],
      progressAttempted := false, progressScoreArg := none,
      progressUpdated := false, umAttempted := false, umUrl := none,
      umSuccess := false }

/-! ## Launch view — `launch` (`modulearn/views_lti.py` 162-326) -/

/-- Inputs of one call to the launch view: query parameters, process
environment, the OAuth signing oracle, the resolved outcome-service URL,
current time, cache table state, and the configured TTL. -/
structure LaunchEnv where
  params : String → Option String
  env : String → Option String
  sign : SignOracle
  outcome_service_url : String
  now : Int
  store : CacheStore
  cache_ttl_hours : Int

/-- Observable outcome of one call to the launch view.  `signedOAuth`
records whether OAuth signing was performed, `cacheWritten` whether the
launch context was upserted; 200 is the auto-submit form, 302 a redirect
(PAWS tools), 400 a validation/configuration client error, 500 an
exception the view does not catch. -/
structure LaunchResult where
  status : Nat
  errorBody : String
  signedParams : Option (List (String × String))
  signedOAuth : Bool
  cacheWritten : Bool
  store : CacheStore
  usedTool : Option String
  usedSub : Option String
  usedUsr : Option String
  usedGrp : Option String

/-- A 400 client-error response of the launch view (no side effects). -/
def launchFail400 (e : LaunchEnv) (msg : String) : LaunchResult :=
  { status := 400, errorBody := msg, signedParams := none, signedOAuth := false,
    cacheWritten := false, store := e.store, usedTool := none, usedSub := none,
    usedUsr := none, usedGrp := none }

/-- The launch view (views_lti.py 186-326): missing-parameter check,
identifier validation (`except ValueError` around it yields 400),
`module_id` parsing, the `is_tool_configured` check, body building and
signing (`except ValueError` yields 400; a `str.format` `IndexError` or
`KeyError` is *not* caught and becomes a Django 500), then the cache
upsert, and finally a 302 redirect for PAWS tools or the 200 auto-submit
form.  The response-rendering tail (mixed-content handling, headers) only
chooses the redirect target and does not change status or effects. -/
def launch (e : LaunchEnv) : LaunchResult :=
  let getP := fun k => (e.params k).getD ""
  let missing := ["tool", "sub", "usr", "grp"].filter (fun p => getP p = "")
  if missing ≠ [] then
    launchFail400 e ("Missing required parameters: " ++ String.intercalate ", " missing)
  else
    match validate_identifier (getP "tool") "tool" 64 with
    | .error msg => launchFail400 e msg
    | .ok tool =>
    match validate_identifier (getP "sub") "sub" 512 with
    | .error msg => launchFail400 e msg
    | .ok sub =>
    match validate_identifier (getP "usr") "usr" 255 with
    | .error msg => launchFail400 e msg
    | .ok usr =>
    match validate_identifier (getP "grp") "grp" 255 with
    | .error msg => launchFail400 e msg
    | .ok grp =>
      let cid := getP "cid"
      let sid := getP "sid"
      let svc := getP "svc"
      let step_explanation := e.params "step_explanation"
      let module_id : Option Int :=
        match e.params "module_id" with
        | none => none
        | some m => if m = "" then none else pyInt m
      if ¬ is_tool_configured e.env tool then
        launchFail400 e ("Tool \x27" ++ tool ++ "\x27 not configured. Set env vars: " ++
          tool.toUpper ++ "_KEY, " ++ tool.toUpper ++ "_SECRET, " ++ tool.toUpper ++ "_LAUNCH")
      else
        let source_id := generate_source_id usr grp sub
        match build_signed_lti_params e.env e.sign tool source_id sub usr grp cid
            e.outcome_service_url step_explanation sid svc with
        | .error (.valueError m) => launchFail400 e m
        | .error (.indexError _) => { launchFail400 e "" with status := 500 }
        | .error (.keyError _) => { launchFail400 e "" with status := 500 }
        | .ok pr =>
          let r := get_or_create_cache e.store e.now source_id tool usr grp sub cid
            sid svc pr.2.1 e.cache_ttl_hours module_id
          let isPaws :=
            match get_tool_config e.env tool with
            | some cfg => cfg.is_paws_proxy
            | none => false
          { status := if isPaws then 302 else 200, errorBody := "",
            signedParams := some pr.1, signedOAuth := pr.2.2, cacheWritten := true,
            store := r.2, usedTool := some tool, usedSub := some sub,
            usedUsr := some usr, usedGrp := some grp }

/-! ## Concrete fixtures for witness instantiations -/

/-- A valid cached launch context for `codecheck`, as produced by a launch
with `usr=42, grp=7, sub=ex1, module_id=5`. -/
def ceW : LTILaunchCacheEntry :=
  { source_id := "42_7_ex1", tool := "codecheck", usr := "42", grp := "7",
    sub := "ex1", module_id := some 5, user_id := some 42,
    course_instance_id := some 7, cid := "", sid := "", svc := "",
    launch_url := "", created_at := 0, expires_at := 86400 }

/-- A concrete outcome-view call: well-formed XML for `42_7_ex1` with score
`0.85`, valid cache, UM forwarding enabled and accepted. -/
def outcomeEnvW : OutcomeEnv :=
  { parseResult := .ok ("42_7_ex1", "0.85"), internalFault := none,
    cacheStore := [ceW], now := 100, progressResult := true,
    forwardToUM := true, umServiceUrl := "http://um",
    umHttp := .status 200, env := fun _ => none,
    respTime := "T", respUuid := "U" }

/-- As `outcomeEnvW` but with the out-of-range raw score string `"5"`. -/
def outcomeEnvRaw5 : OutcomeEnv :=
  { outcomeEnvW with parseResult := .ok ("42_7_ex1", "5") }

/-- A launch request whose `usr` parameter contains an inner space (an
allow-list violation that stripping does not remove). -/
def launchEnvBadUsr : LaunchEnv :=
  { params := fun k =>
      if k = "tool" then some "codecheck"
      else if k = "sub" then some "ex1"
      else if k = "usr" then some "a b"
      else if k = "grp" then some "7"
      else none,
    env := fun _ => none, sign := fun b _ _ _ => b,
    outcome_service_url := "http://osu", now := 0, store := [],
    cache_ttl_hours := 24 }

/-- A process environment in which `opendsa_problems` has credentials. -/
def opendsaEnv : String → Option String := fun k =>
  if k = "OPENDSA_PROBLEMS_KEY" then some "k"
  else if k = "OPENDSA_PROBLEMS_SECRET" then some "s"
  else none

/-- A well-formed launch request for `opendsa_problems`. -/
def launchEnvOpendsa : LaunchEnv :=
  { params := fun k =>
      if k = "tool" then some "opendsa_problems"
      else if k = "sub" then some "ex1"
      else if k = "usr" then some "42"
      else if k = "grp" then some "7"
      else none,
    env := opendsaEnv, sign := fun b _ _ _ => b,
    outcome_service_url := "http://osu", now := 0, store := [],
    cache_ttl_hours := 24 }

end ModuLearn

namespace ModuLearn

-- ===========================================================================
-- THEOREMS
-- ===========================================================================

/-- **C1** (code bug).  The claim states a monotonic merge: from any stored
state, delivering scores `s1 < s2` (both in `[0,1]`) in either order leaves
the stored score at `max(s1, s2)`.  The code stores the score as a
percentage (`score * 100`) but compares the incoming 0-1 score against that
stored percentage (`score > progress.score`), so the merge is
order-dependent: on a fresh record, delivering `0.5` then `0.8` leaves the
stored score at `50` (the `0.8` outcome is dropped because `0.8 > 50` is
false), while delivering `0.8` then `0.5` leaves `80`. -/
theorem update_module_progress_order_dependent :
    ((update_module_progress (update_module_progress freshProgress (1 / 2)).1 (4 / 5)).1.score
        = some 50)
    ∧ ((update_module_progress (update_module_progress freshProgress (4 / 5)).1 (1 / 2)).1.score
        = some 80)
    ∧ ((1 : Rat) / 2 < 4 / 5) := by
  refine ⟨by norm_num [update_module_progress, freshProgress],
    by norm_num [update_module_progress, freshProgress], by norm_num⟩

/-- **C10** (frame condition of the progress merge).  When the stored score
is present and the incoming score is not strictly greater than it, the
record is returned entirely unchanged — in particular `attempts` is not
incremented — and the function reports `false`. -/
theorem update_module_progress_frame (p : ModuleProgress) (st s : Rat)
    (h1 : p.score = some st) (h2 : ¬ s > st) :
    update_module_progress p s = (p, false) := by
  unfold update_module_progress
  rw [h1]
  simp [h2]

/-- Witness for `update_module_progress_frame` at a concrete record:
a stored score of `50` with a duplicate delivery of `1/2` leaves the record
(including `attempts = 3`) untouched. -/
theorem update_module_progress_frame_witness :
    update_module_progress
      { score := some 50, progress := 1 / 2, is_complete := false,
        success := false, attempts := 3 } (1 / 2)
      = ({ score := some 50, progress := 1 / 2, is_complete := false,
           success := false, attempts := 3 }, false) :=
  update_module_progress_frame _ 50 (1 / 2) rfl (by norm_num)

/-- **C2** (counterexample to the stated boundary).  The claim says a cache
entry created with TTL `H` reports not-found **at** `creation + H`.  The
code tests `now > expires_at`, so at exactly `creation + H` the entry is
still returned: creating at time `0` with a 24-hour TTL and looking up at
exactly `3600 * 24` yields the entry, not a miss. -/
theorem get_valid_cache_boundary_counterexample :
    (get_valid_cache
      (get_or_create_cache [] 0 "42_7_ex1" "codecheck" "42" "7" "ex1" "" "" "" "" 24
        (some 5)).2
      "42_7_ex1" (3600 * 24)).1
    = some ((get_or_create_cache [] 0 "42_7_ex1" "codecheck" "42" "7" "ex1" "" "" "" "" 24
        (some 5)).1) := by
  rfl

/-- **C2** (amended).  A cache entry is valid iff `now ≤ expires_at`
(`is_expired` is `now > expires_at`), and a context created at time `c`
with TTL `H` hours is retrievable at every instant `t ≤ c + 3600 * H` and
reports not-found strictly after that instant. -/
theorem get_valid_cache_ttl_amended :
    (∀ (e : LTILaunchCacheEntry) (now : Int),
        is_expired e now = false ↔ now ≤ e.expires_at)
    ∧ (∀ (c H t : Int) (sid tool usr grp sub cid ssid svc lu : String)
        (mid : Option Int),
        (get_valid_cache
            (get_or_create_cache [] c sid tool usr grp sub cid ssid svc lu H mid).2
            sid t).1
          = if t ≤ c + 3600 * H then
              some (get_or_create_cache [] c sid tool usr grp sub cid ssid svc lu H mid).1
            else none) := by
  constructor
  · intro e now
    simp [is_expired]
  · intro c H t sid tool usr grp sub cid ssid svc lu mid
    by_cases ht : t ≤ c + 3600 * H
    · have hng : ¬ (t > c + 3600 * H) := by omega
      simp [get_or_create_cache, get_valid_cache, findCache, is_expired, ht, hng]
    · have hg : t > c + 3600 * H := by omega
      simp [get_or_create_cache, get_valid_cache, findCache, is_expired, ht, hg]

/-- **C8**.  `generate_source_id` is the plain underscore join of its three
arguments (pure and deterministic), and because no escaping is performed it
is not injective: `("1_2", "3", "x")` and `("1", "2_3", "x")` are distinct
triples with the same source id. -/
theorem generate_source_id_join_and_collision :
    (∀ usr grp sub : String,
        generate_source_id usr grp sub = usr ++ "_" ++ grp ++ "_" ++ sub)
    ∧ generate_source_id "1_2" "3" "x" = generate_source_id "1" "2_3" "x"
    ∧ (("1_2", "3") : String × String) ≠ ("1", "2_3") := by
  exact ⟨fun _ _ _ => rfl, by decide, by decide⟩

/-- **C9** (counterexample to "no input value is ever silently sanitized").
`validate_identifier` strips surrounding whitespace before checking the
allow-list: the input `" abc "` violates `SAFE_ID_PATTERN` (spaces are not
allowed), yet it is silently accepted as `"abc"` instead of being
rejected. -/
theorem validate_identifier_sanitizes_counterexample :
    validate_identifier " abc " "usr" 255 = .ok "abc"
    ∧ SAFE_ID_MATCH " abc " = false
    ∧ (" abc " : String) ≠ "abc" := by
  refine ⟨by rfl, by rfl, by decide⟩

/-- **C9** (amended).  On every launch request, when any of the four
identifiers `tool/sub/usr/grp` fails `validate_identifier` (after the
silent strip of surrounding whitespace), the view answers HTTP 400 and
performs no OAuth signing and no cache write (the store is untouched) —
validation happens before any such work; and every value
`validate_identifier` accepts is the stripped input and satisfies the
allow-list. -/
theorem launch_validates_before_side_effects :
    (∀ (e : LaunchEnv) (msg : String),
      (validate_identifier ((e.params "tool").getD "") "tool" 64 = .error msg
        ∨ validate_identifier ((e.params "sub").getD "") "sub" 512 = .error msg
        ∨ validate_identifier ((e.params "usr").getD "") "usr" 255 = .error msg
        ∨ validate_identifier ((e.params "grp").getD "") "grp" 255 = .error msg) →
      (launch e).status = 400 ∧ (launch e).signedOAuth = false
        ∧ (launch e).cacheWritten = false ∧ (launch e).store = e.store)
    ∧ (∀ (v n : String) (m : Nat) (r : String),
        validate_identifier v n m = .ok r →
        r = pyStrip v ∧ SAFE_ID_MATCH r = true) := by
  constructor
  · intro e msg h
    cases hv1 : validate_identifier ((e.params "tool").getD "") "tool" 64 with
    | error m1 =>
        unfold launch
        simp only [hv1]
        split <;> exact ⟨rfl, rfl, rfl, rfl⟩
    | ok tool =>
      cases hv2 : validate_identifier ((e.params "sub").getD "") "sub" 512 with
      | error m2 =>
          unfold launch
          simp only [hv1, hv2]
          split <;> exact ⟨rfl, rfl, rfl, rfl⟩
      | ok sub =>
        cases hv3 : validate_identifier ((e.params "usr").getD "") "usr" 255 with
        | error m3 =>
            unfold launch
            simp only [hv1, hv2, hv3]
            split <;> exact ⟨rfl, rfl, rfl, rfl⟩
        | ok usr =>
          cases hv4 : validate_identifier ((e.params "grp").getD "") "grp" 255 with
          | error m4 =>
              unfold launch
              simp only [hv1, hv2, hv3, hv4]
              split <;> exact ⟨rfl, rfl, rfl, rfl⟩
          | ok grp =>
              exfalso
              rcases h with h | h | h | h
              · rw [hv1] at h; exact Except.noConfusion h
              · rw [hv2] at h; exact Except.noConfusion h
              · rw [hv3] at h; exact Except.noConfusion h
              · rw [hv4] at h; exact Except.noConfusion h
  · intro v n m r h
    unfold validate_identifier at h
    by_cases h1 : v = ""
    · rw [if_pos h1] at h
      exact Except.noConfusion h
    · rw [if_neg h1] at h
      by_cases h2 : (pyStrip v).length > m
      · rw [if_pos h2] at h
        exact Except.noConfusion h
      · rw [if_neg h2] at h
        by_cases h3 : SAFE_ID_MATCH (pyStrip v) = true
        · rw [if_neg (not_not_intro h3)] at h
          injection h with h'
          exact ⟨h'.symm, h' ▸ h3⟩
        · rw [if_pos h3] at h
          exact Except.noConfusion h

/-- Witness for `launch_validates_before_side_effects`: the concrete
launch request with `usr="a b"` (inner space) yields 400 with no signing
and no cache write, and `validate_identifier` on `" ex1 "` returns the
stripped `"ex1"`, which matches the allow-list. -/
theorem launch_validates_before_side_effects_witness :
    ((launch launchEnvBadUsr).status = 400
      ∧ (launch launchEnvBadUsr).signedOAuth = false
      ∧ (launch launchEnvBadUsr).cacheWritten = false
      ∧ (launch launchEnvBadUsr).store = launchEnvBadUsr.store)
    ∧ ("ex1" = pyStrip " ex1 " ∧ SAFE_ID_MATCH "ex1" = true) :=
  ⟨launch_validates_before_side_effects.1 launchEnvBadUsr
      "Parameter \x27usr\x27 contains invalid characters"
      (Or.inr (Or.inr (Or.inl rfl))),
   launch_validates_before_side_effects.2 " ex1 " "usr" 255 "ex1" rfl⟩

/-- **C4**.  Every POST to the outcome endpoint writes exactly one
`LTIOutcomeLog` entry, on every path: XML parse failure, an unexpected
internal fault (the outer `except Exception` boundary does a best-effort
log write), cache miss, and the normal path under every combination of
progress-update and UM-forwarding results (including forwarding
disabled). -/
theorem outcome_writes_exactly_one_log (method : String) (env : OutcomeEnv)
    (h : method = "POST") :
    (outcomeView method env).logs.length = 1 := by
  subst h
  show (outcome env).logs.length = 1
  unfold outcome
  repeat' split <;> try rfl

/-- Witness for `outcome_writes_exactly_one_log` at the concrete
`outcomeEnvW` call. -/
theorem outcome_writes_exactly_one_log_witness :
    (outcomeView "POST" outcomeEnvW).logs.length = 1 :=
  outcome_writes_exactly_one_log "POST" outcomeEnvW rfl

/-- **C3**.  For every outcome request that parses successfully, is not
hit by an internal fault, and finds a valid cache entry: the success
recorded in the single log entry equals `progress_updated or um_success`
(the OR of the two effects' results), the XML response reports exactly
that OR, and the two side effects are attempted (and their results
computed) independently of each other's result: changing the UM HTTP
outcome does not change whether the progress update is attempted or its
result, and changing the progress result does not change whether UM
forwarding is attempted or its result. -/
theorem outcome_success_is_or_of_effects (env : OutcomeEnv) (sid sc : String)
    (ce : LTILaunchCacheEntry)
    (h1 : env.parseResult = .ok (sid, sc))
    (h2 : env.internalFault = none)
    (h3 : (get_valid_cache env.cacheStore sid env.now).1 = some ce) :
    (outcome env).logs.map (fun l => l.success)
        = [(outcome env).progressUpdated || (outcome env).umSuccess]
    ∧ (∃ d, (outcome env).body
        = create_outcome_response
            ((outcome env).progressUpdated || (outcome env).umSuccess)
            d env.respTime env.respUuid)
    ∧ (∀ hh : UMHttpResult,
        (outcome { env with umHttp := hh }).progressAttempted
            = (outcome env).progressAttempted
        ∧ (outcome { env with umHttp := hh }).progressUpdated
            = (outcome env).progressUpdated)
    ∧ (∀ b : Bool,
        (outcome { env with progressResult := b }).umAttempted
            = (outcome env).umAttempted
        ∧ (outcome { env with progressResult := b }).umSuccess
            = (outcome env).umSuccess) := by
  refine ⟨?_, ?_, ?_, ?_⟩
  · simp [outcome, h1, h2, h3]
  · simp only [outcome, h1, h2, h3]
    exact ⟨_, rfl⟩
  · intro hh
    constructor <;> simp [outcome, h1, h2, h3]
  · intro b
    constructor <;> simp [outcome, h1, h2, h3]

/-- Witness for `outcome_success_is_or_of_effects` at the concrete
`outcomeEnvW` call (valid cache entry `ceW`). -/
theorem outcome_success_is_or_of_effects_witness :
    (outcome outcomeEnvW).logs.map (fun l => l.success)
      = [(outcome outcomeEnvW).progressUpdated || (outcome outcomeEnvW).umSuccess] :=
  (outcome_success_is_or_of_effects outcomeEnvW "42_7_ex1" "0.85" ceW rfl rfl rfl).1

/-- **C6**.  The outcome endpoint answers HTTP 200 for every POST —
whatever the parse, cache, UM or internal-fault outcome — and the body is
always a `create_outcome_response` POX `replaceResultResponse` envelope
(whose `imsx_codeMajor` alone carries success/failure); a non-POST method
is answered 405 by the method decorator, and no path lets an internal
exception escape as a transport error (the embedded view is total and the
`internalFault` path also produces the 200 POX failure response). -/
theorem outcome_transport_always_200 (method : String) (env : OutcomeEnv) :
    ((outcomeView method env).status = if method = "POST" then 200 else 405)
    ∧ (method = "POST" →
        ∃ s d, (outcomeView method env).body
          = create_outcome_response s d env.respTime env.respUuid) := by
  constructor
  · by_cases h : method = "POST"
    · subst h
      show (outcome env).status = if ("POST" : String) = "POST" then 200 else 405
      rw [if_pos rfl]
      unfold outcome
      repeat' split <;> try rfl
    · rw [if_neg h]
      unfold outcomeView
      rw [if_neg h]
  · intro h
    subst h
    show ∃ s d, (outcome env).body = create_outcome_response s d env.respTime env.respUuid
    unfold outcome
    repeat' split <;> try exact ⟨_, _, rfl⟩

/-- Witness for `outcome_transport_always_200` at the concrete
`outcomeEnvW` call (the inner implication discharged at `method =
"POST"`). -/
theorem outcome_transport_always_200_witness :
    ((outcomeView "POST" outcomeEnvW).status
        = if ("POST" : String) = "POST" then 200 else 405)
    ∧ (∃ s d, (outcomeView "POST" outcomeEnvW).body
        = create_outcome_response s d outcomeEnvW.respTime outcomeEnvW.respUuid) :=
  ⟨(outcome_transport_always_200 "POST" outcomeEnvW).1,
   (outcome_transport_always_200 "POST" outcomeEnvW).2 rfl⟩

/-- **C5** (counterexample to "clamped before use").  On the concrete
outcome with raw score string `"5"` for the cached `codecheck` launch, the
locally used score is clamped to `1`, but the UM forwarding request — one
of the two uses of the score — carries the raw, unclamped `res=5`
(`build_um_url` is given the raw string, views_lti.py 432), although
`float("5") = 5 > 1`. -/
theorem outcome_raw_score_forwarded_counterexample :
    (outcome outcomeEnvRaw5).progressScoreArg = some 1
    ∧ (outcome outcomeEnvRaw5).umUrl
        = some "http://um?app=56&act=codecheck&sub=ex1&res=5&usr=42&grp=7"
    ∧ pyFloat "5" = some 5
    ∧ ¬ ((5 : Rat) ≤ 1) := by
  refine ⟨rfl, rfl, rfl, by norm_num⟩

/-- **C5** (amended).  The normalized score (the result of the clamping
block on the parsed float) always lies in `[0,1]`; it is the value handed
to the local progress update (when that update is attempted); a
non-numeric score string normalizes to `0.0` without aborting the outcome,
which is still logged (exactly one log entry); but the UM forwarding URL
is built from the *raw* score string, not the clamped value. -/
theorem outcome_score_clamped_for_local_use (env : OutcomeEnv) (sid sc : String)
    (ce : LTILaunchCacheEntry)
    (h1 : env.parseResult = .ok (sid, sc))
    (h2 : env.internalFault = none)
    (h3 : (get_valid_cache env.cacheStore sid env.now).1 = some ce) :
    (0 ≤ (normalize_score (pyFloat sc)).1 ∧ (normalize_score (pyFloat sc)).1 ≤ 1)
    ∧ (outcome env).progressScoreArg
        = (if truthyInt ce.user_id && truthyInt ce.module_id then
             some (normalize_score (pyFloat sc)).1
           else none)
    ∧ (pyFloat sc = none → (normalize_score (pyFloat sc)).1 = 0)
    ∧ (outcome env).logs.length = 1
    ∧ (env.forwardToUM = true →
        (outcome env).umUrl
          = (build_um_url env.env env.umServiceUrl ce.tool sc ce.usr ce.grp ce.sub
              ce.sid ce.svc ce.cid).toOption) := by
  refine ⟨?_, ?_, ?_, ?_, ?_⟩
  · rcases hp : pyFloat sc with _ | x
    · simp [normalize_score]
    · simp only [normalize_score]
      split_ifs with ha hb
      · exact ⟨le_refl 0, by norm_num⟩
      · exact ⟨by norm_num, le_refl 1⟩
      · exact ⟨by linarith, by linarith⟩
  · simp [outcome, h1, h2, h3]
  · intro hp
    simp [normalize_score, hp]
  · simp [outcome, h1, h2, h3]
  · intro h4
    simp only [outcome, h1, h2, h3, h4]
    cases hb : build_um_url env.env env.umServiceUrl ce.tool sc ce.usr ce.grp ce.sub
        ce.sid ce.svc ce.cid with
    | error e => simp [hb, Except.toOption]
    | ok url =>
        simp only [hb, Except.toOption, if_true]
        cases env.umHttp <;> simp <;> split <;> rfl

/-- Witness for `outcome_score_clamped_for_local_use` at the concrete
`outcomeEnvRaw5` call. -/
theorem outcome_score_clamped_for_local_use_witness :
    (0 ≤ (normalize_score (pyFloat "5")).1 ∧ (normalize_score (pyFloat "5")).1 ≤ 1)
    ∧ (outcome outcomeEnvRaw5).logs.length = 1 :=
  ⟨(outcome_score_clamped_for_local_use outcomeEnvRaw5 "42_7_ex1" "5" ceW
      rfl rfl rfl).1,
   (outcome_score_clamped_for_local_use outcomeEnvRaw5 "42_7_ex1" "5" ceW
      rfl rfl rfl).2.2.2.1⟩

/-- **C7** (code bug).  The claim says applying the body-parameter
template overrides never raises and that a value with an unknown
placeholder is kept unsubstituted with a warning.  The override code
catches only `KeyError`, but the shipped configuration of
`opendsa_problems` / `opendsa_slideshows` contains the literal override
value `"{}"` (`custom_ex_settings`), whose empty field is a *positional*
reference: `str.format` raises `IndexError`, which escapes
`create_lti_body`; the launch view catches only `ValueError`, so the
request ends in a Django 500 with no cache write. -/
theorem create_lti_body_opendsa_indexerror :
    create_lti_body (fun _ => none) "opendsa_problems" "42_7_ex1" "ex1" "42" "7" ""
        "http://osu" none
      = .error (.indexError "Replacement index 0 out of range")
    ∧ (launch launchEnvOpendsa).status = 500
    ∧ (launch launchEnvOpendsa).cacheWritten = false := by
  refine ⟨rfl, rfl, rfl⟩

end ModuLearn
